import Mathlib

/-
Verification of the DhanSaathi authentication core: a shallow embedding of
`backend/app/core/auth.py` (JWT issue/verify) and
`backend/app/routes/user_routes.py` (register, login, current-user
resolution, profile update), with theorems about its security-relevant
behaviour.
-/

namespace DhanSaathi

/-- JWT payload as used by this service. The source puts a `user_id` claim
and an `exp` claim in the payload dict; other claims never occur on the
issuing side and are irrelevant to the verifier, so the payload is modelled
by these two optional fields. `none` models absence of the claim. -/
structure Payload where
  user_id : Option Int
  exp : Option Int
deriving DecidableEq, Repr

/-- Idealized signature value: an HMAC is modelled as an injective function
of the key, the algorithm tag and the signed payload. -/
abbrev Sig := String × String × Payload

/-- Idealized HMAC: injective in key, algorithm and payload (a perfect MAC).
`jwt.encode` signs with this; `jwt.decode` recomputes and compares. -/
def hmacSign (key alg : String) (p : Payload) : Sig := (key, alg, p)

/-- A token string, after parsing: either structurally malformed, or a
well-formed envelope carrying an optional algorithm tag in its header, a
payload, and a signature value. -/
inductive TokenStr where
  | malformed
  | wellFormed (alg : Option String) (payload : Payload) (sig : Sig)
deriving DecidableEq, Repr

/-- Module-level secret (`os.getenv("SECRET_KEY", "supersecretkey")`);
modelled as the dev fallback, one fixed process-wide value. -/
def SECRET_KEY : String := "supersecretkey"

/-- Configured signing algorithm (`ALGORITHM = "HS256"` in auth.py). -/
def ALGORITHM : String := "HS256"

/-- Token lifetime in minutes (`ACCESS_TOKEN_EXPIRE_MINUTES = 60`). -/
def ACCESS_TOKEN_EXPIRE_MINUTES : Int := 60

/-- Errors raised by `jose.jwt.decode`; `ExpiredSignatureError` is a
subclass of `JWTError`, so both are caught by `except JWTError`. -/
inductive JWTError where
  | generic
  | expiredSignature
deriving DecidableEq, Repr

/-- Model of `jose.jwt.decode(token, key, algorithms=...)`: reject a
malformed envelope; reject a header whose algorithm tag is absent or not in
the allowed list; verify the signature under the declared algorithm; then
validate the `exp` claim (expired when `exp < now`, with jose's default
zero leeway; a payload without `exp` is not expiry-checked). Time is in
integer seconds. -/
def jwt_decode (key : String) (algorithms : List String) (now : Int)
    (t : TokenStr) : Except JWTError Payload :=
  match t with
  | .malformed => .error .generic
  | .wellFormed alg payload sig =>
    match alg with
    | none => .error .generic
    | some a =>
      if a ∈ algorithms then
        if sig = hmacSign key a payload then
          match payload.exp with
          | some e => if e < now then .error .expiredSignature else .ok payload
          | none => .ok payload
        else .error .generic
      else .error .generic

/-- Model of `create_access_token(data, expires_delta)`: copies `data`,
overwrites its `exp` claim with `now + (expires_delta or default)`, and
signs with the module secret and algorithm. `expires_delta` is in seconds;
Python's `or` treats `timedelta(0)` as falsy, so a zero delta falls back to
the 60-minute default, as does `None`. -/
def create_access_token (now : Int) (data : Payload)
    (expires_delta : Option Int) : TokenStr :=
  let delta : Int :=
    match expires_delta with
    | some d => if d = 0 then ACCESS_TOKEN_EXPIRE_MINUTES * 60 else d
    | none => ACCESS_TOKEN_EXPIRE_MINUTES * 60
  let expire := now + delta
  let to_encode : Payload := { data with exp := some expire }
  .wellFormed (some ALGORITHM) to_encode
    (hmacSign SECRET_KEY ALGORITHM to_encode)

/-- Model of `verify_access_token(token)`: decode under the single allowed
algorithm; on success return `payload.get("user_id")` unless it is absent;
any `JWTError` is caught and converted to the `None` sentinel. -/
def verify_access_token (now : Int) (token : TokenStr) : Option Int :=
  match jwt_decode SECRET_KEY [ALGORITHM] now token with
  | .ok payload => payload.user_id
  | .error _ => none

/-- User record as persisted by the store (`app.models.user.User`): id,
username, email, bcrypt password hash. -/
structure User where
  id : Int
  username : String
  email : String
  hashed_password : String
deriving DecidableEq, Repr

/-- FastAPI `HTTPException(status_code, detail)` as raised by the routes. -/
structure HTTPException where
  status_code : Nat
  detail : String
deriving DecidableEq, Repr

/-- Registration request body (`UserCreate` schema). -/
structure UserCreate where
  username : String
  email : String
  password : String
deriving DecidableEq, Repr

/-- Model of `pwd_context.hash` (bcrypt). The per-call random salt is
abstracted away — no claim here depends on salt randomization — leaving an
injective deterministic stand-in. -/
def hash_password (password : String) : String := "bcrypt$" ++ password

/-- Model of `pwd_context.verify(plaintext, hash)`: true exactly when the
hash was produced from the plaintext. -/
def pwd_verify (plaintext h : String) : Bool := h == hash_password plaintext

/-- Model of `db.query(User).filter(...).first()` over the store, which is
a list of user records; `first()` is the head of the filtered result. -/
def db_first (db : List User) (p : User → Bool) : Option User := db.find? p

/-- Model of `db.add(u); db.commit()` for an object attached to the
session: the stored row with the object's primary key takes the object's
current field values. -/
def commit_user (db : List User) (u : User) : List User :=
  db.map fun r => if r.id = u.id then u else r

/-- Model of `register_user`: reject with 400 when a record with the
requested email exists, else hash the password and insert the new record.
The store assigns the fresh id `newId`; the endpoint returns the new
record's id and email. The resulting store is returned alongside. -/
def register_user (newId : Int) (u : UserCreate) (db : List User) :
    List User × Except HTTPException (Int × String) :=
  match db_first db (fun x => x.email == u.email) with
  | some _ => (db, .error ⟨400, "Email already registered"⟩)
  | none =>
    let hashed_pw := hash_password u.password
    let new_user : User := ⟨newId, u.username, u.email, hashed_pw⟩
    (db ++ [new_user], .ok (new_user.id, new_user.email))

/-- Model of `login_user`: look the record up by the form's username field
(which carries the email); if absent, or present with a failing password
check, raise one generic 400; otherwise issue a token for the record's id
and return it with the user summary. -/
def login_user (now : Int) (form_username form_password : String)
    (db : List User) : Except HTTPException (TokenStr × User) :=
  match db_first db (fun x => x.email == form_username) with
  | none => .error ⟨400, "Invalid email or password"⟩
  | some user =>
    if pwd_verify form_password user.hashed_password then
      .ok (create_access_token now ⟨some user.id, none⟩ none, user)
    else .error ⟨400, "Invalid email or password"⟩

/-- Model of `get_current_user`: verify the token; `if not user_id` is
Python truthiness, so both the `None` sentinel and the integer 0 take the
401 branch; then resolve the subject to a record or raise 404. -/
def get_current_user (now : Int) (token : TokenStr) (db : List User) :
    Except HTTPException User :=
  match verify_access_token now token with
  | none => .error ⟨401, "Invalid or expired token"⟩
  | some uid =>
    if uid = 0 then .error ⟨401, "Invalid or expired token"⟩
    else
      match db_first db (fun x => x.id == uid) with
      | none => .error ⟨404, "User not found"⟩
      | some user => .ok user

/-- Partial-update request body (`UserUpdate` schema). -/
structure UserUpdate where
  username : Option String
  email : Option String
deriving DecidableEq, Repr

/-- Username step of `update_my_profile`: `if payload.username and
payload.username != current_user.username` — truthiness makes `None` and
the empty string skip the branch. Returns the (possibly updated) object and
the `changed` flag contribution. -/
def apply_username (payload : UserUpdate) (current_user : User) :
    User × Bool :=
  match payload.username with
  | some s =>
    if s ≠ "" ∧ s ≠ current_user.username then
      ({ current_user with username := s }, true)
    else (current_user, false)
  | none => (current_user, false)

/-- Model of `update_my_profile`: apply the username step, then the email
step — a truthy requested email differing from the current one is checked
for uniqueness against the store, excluding the current user's own id; a
conflict raises 400 before any commit (leaving the store unchanged), else
the mutation is committed when anything changed. Returns the resulting
store and the updated user (or the raised exception). -/
def update_my_profile (payload : UserUpdate) (current_user : User)
    (db : List User) : List User × Except HTTPException User :=
  let step := apply_username payload current_user
  let cu := step.1
  let changed := step.2
  match payload.email with
  | some e =>
    if e ≠ "" ∧ e ≠ cu.email then
      match db_first db (fun x => x.email == e) with
      | some existing =>
        if existing.id ≠ cu.id then
          (db, .error ⟨400, "Email already in use"⟩)
        else
          let cu2 := { cu with email := e }
          (commit_user db cu2, .ok cu2)
      | none =>
        let cu2 := { cu with email := e }
        (commit_user db cu2, .ok cu2)
    else if changed then (commit_user db cu, .ok cu) else (db, .ok cu)
  | none => if changed then (commit_user db cu, .ok cu) else (db, .ok cu)

/-- C1: verifying a token immediately after issuance with subject `s` and
ttl `t` returns `s`, as long as the clock has not advanced past
issuance-time-plus-ttl and the ttl is nonnegative. -/
theorem token_issue_verify_roundtrip (s t now now2 : Int)
    (ht : 0 ≤ t) (hc : now2 ≤ now + t) :
    verify_access_token now2
      (create_access_token now ⟨some s, none⟩ (some t)) = some s := by
  unfold verify_access_token create_access_token jwt_decode
  simp only [List.mem_singleton]
  by_cases h0 : t = 0
  · subst h0
    simp only [if_pos rfl]
    have hlt : ¬ now + ACCESS_TOKEN_EXPIRE_MINUTES * 60 < now2 := by
      unfold ACCESS_TOKEN_EXPIRE_MINUTES
      omega
    simp [hlt]
  · simp only [if_neg h0]
    have hlt : ¬ now + t < now2 := by omega
    simp [hlt]

/-- C1 witness: concrete round-trip at subject 7, ttl 60 seconds. -/
theorem token_issue_verify_roundtrip_witness :
    verify_access_token 100
      (create_access_token 100 ⟨some 7, none⟩ (some 60)) = some 7 :=
  token_issue_verify_roundtrip 7 60 100 100 (by decide) (by decide)

/-- C2: a token whose embedded expiry claim lies strictly before the
current time verifies to the invalid sentinel, whatever its algorithm tag
and signature — in particular even when the signature is valid under the
configured secret. -/
theorem expired_token_invalid (alg : Option String) (p : Payload) (sig : Sig)
    (now e : Int) (hexp : p.exp = some e) (hlt : e < now) :
    verify_access_token now (.wellFormed alg p sig) = none := by
  unfold verify_access_token jwt_decode
  cases alg with
  | none => rfl
  | some a =>
    simp only [List.mem_singleton]
    by_cases hmem : a = ALGORITHM
    · subst hmem
      by_cases hsig : sig = hmacSign SECRET_KEY ALGORITHM p
      · simp [hsig, hexp, hlt]
      · simp [hsig]
    · simp [hmem]

/-- C2 witness: a correctly signed token with exp 10 checked at time 11 is
invalid. -/
theorem expired_token_invalid_witness :
    verify_access_token 11
      (.wellFormed (some ALGORITHM) ⟨some 7, some 10⟩
        (hmacSign SECRET_KEY ALGORITHM ⟨some 7, some 10⟩)) = none :=
  expired_token_invalid (some ALGORITHM) ⟨some 7, some 10⟩
    (hmacSign SECRET_KEY ALGORITHM ⟨some 7, some 10⟩) 11 10 rfl (by decide)

/-- C3: a token whose header declares an algorithm other than the single
configured one, or declares none, verifies to the invalid sentinel — for
every signature value, in particular one that validates under the declared
algorithm. -/
theorem wrong_algorithm_invalid (alg : Option String) (p : Payload)
    (sig : Sig) (now : Int) (halg : alg ≠ some ALGORITHM) :
    verify_access_token now (.wellFormed alg p sig) = none := by
  unfold verify_access_token jwt_decode
  cases alg with
  | none => rfl
  | some a =>
    have hne : a ≠ ALGORITHM := fun h => halg (by rw [h])
    simp [hne]

/-- C3 witness: a token tagged HS512 and signed consistently under that
very tag is still rejected. -/
theorem wrong_algorithm_invalid_witness :
    verify_access_token 0
      (.wellFormed (some ("HS512")) ⟨some 7, some 99⟩
        (hmacSign SECRET_KEY ("HS512") ⟨some 7, some 99⟩)) = none :=
  wrong_algorithm_invalid (some ("HS512")) ⟨some 7, some 99⟩
    (hmacSign SECRET_KEY ("HS512") ⟨some 7, some 99⟩) 0 (by decide)

/-- C4: verification never raises: every `JWTError` produced by the decode
step is converted to the `none` sentinel, and on every input the function
totally returns either the sentinel or a subject. -/
theorem verify_never_raises (now : Int) (t : TokenStr) :
    (∀ e, jwt_decode SECRET_KEY [ALGORITHM] now t = .error e →
      verify_access_token now t = none)
    ∧ (verify_access_token now t = none ∨
        ∃ u, verify_access_token now t = some u) := by
  constructor
  · intro e he
    unfold verify_access_token
    rw [he]
  · cases h : verify_access_token now t with
    | none => exact Or.inl rfl
    | some u => exact Or.inr ⟨u, rfl⟩

/-- C4 witness: the malformed token decodes to an error and verification
returns the sentinel. -/
theorem verify_never_raises_witness :
    verify_access_token 0 .malformed = none :=
  (verify_never_raises 0 .malformed).1 .generic rfl

/-- C5: a token with a valid signature under the configured secret and
algorithm and an unexpired expiry claim, but no `user_id` claim in its
payload, verifies to the invalid sentinel. -/
theorem missing_subject_invalid (p : Payload) (now e : Int)
    (hid : p.user_id = none) (hexp : p.exp = some e) (hnow : ¬ e < now) :
    verify_access_token now
      (.wellFormed (some ALGORITHM) p (hmacSign SECRET_KEY ALGORITHM p)) =
      none := by
  unfold verify_access_token jwt_decode
  simp [hexp, hnow, hid]

/-- C5 witness: a validly signed, unexpired token whose payload lacks the
subject claim is invalid at time 0. -/
theorem missing_subject_invalid_witness :
    verify_access_token 0
      (.wellFormed (some ALGORITHM) ⟨none, some 50⟩
        (hmacSign SECRET_KEY ALGORITHM ⟨none, some 50⟩)) = none :=
  missing_subject_invalid ⟨none, some 50⟩ 0 50 rfl rfl (by decide)

/-- Helper: the username step never changes the record's email. -/
theorem apply_username_email (payload : UserUpdate) (cu : User) :
    (apply_username payload cu).1.email = cu.email := by
  unfold apply_username
  cases payload.username with
  | none => rfl
  | some s =>
    by_cases h : s ≠ "" ∧ s ≠ cu.username
    · simp [h]
    · simp [h]

/-- Helper: the username step never changes the record's id. -/
theorem apply_username_id (payload : UserUpdate) (cu : User) :
    (apply_username payload cu).1.id = cu.id := by
  unfold apply_username
  cases payload.username with
  | none => rfl
  | some s =>
    by_cases h : s ≠ "" ∧ s ≠ cu.username
    · simp [h]
    · simp [h]

/-- C6: when a token verifies to a subject that resolves to no stored user
record, `get_current_user` never accepts the credential, and (for any
truthy subject) rejects it with the 404 user-not-found error. -/
theorem unresolved_subject_rejected (now : Int) (t : TokenStr)
    (db : List User) (s : Int)
    (hv : verify_access_token now t = some s)
    (hdb : db_first db (fun x => x.id == s) = none) :
    (∀ u, get_current_user now t db ≠ .ok u)
    ∧ (s ≠ 0 →
        get_current_user now t db = .error ⟨404, "User not found"⟩) := by
  unfold get_current_user
  rw [hv]
  by_cases h0 : s = 0
  · subst h0
    simp
  · simp only [if_neg h0]
    rw [hdb]
    simp [h0]

/-- C6 witness: a freshly issued token for subject 1 against an empty
store is rejected with 404. -/
theorem unresolved_subject_rejected_witness :
    get_current_user 0 (create_access_token 0 ⟨some 1, none⟩ (some 10)) [] =
      .error ⟨404, "User not found"⟩ :=
  (unresolved_subject_rejected 0
      (create_access_token 0 ⟨some 1, none⟩ (some 10)) [] 1
      (by decide) rfl).2 (by decide)

/-- C7: registering with an email already bound to a stored record fails
with the 400 duplicate-email error and leaves the store unchanged; with no
record holding the email, registration succeeds and appends exactly the new
record. -/
theorem register_duplicate_email (newId : Int) (u : UserCreate)
    (db : List User) :
    ((∃ r, db_first db (fun x => x.email == u.email) = some r) →
      register_user newId u db =
        (db, .error ⟨400, "Email already registered"⟩))
    ∧ (db_first db (fun x => x.email == u.email) = none →
      register_user newId u db =
        (db ++ [⟨newId, u.username, u.email, hash_password u.password⟩],
          .ok (newId, u.email))) := by
  constructor
  · rintro ⟨r, hr⟩
    unfold register_user
    rw [hr]
  · intro h
    unfold register_user
    rw [h]

/-- C7 witness: re-registering the email of an existing record is the 400
conflict with the store unchanged. -/
theorem register_duplicate_email_witness :
    register_user 2 ⟨"bob", "a@x.com", "pw"⟩
        [⟨1, "alice", "a@x.com", hash_password ("pw123")⟩] =
      ([⟨1, "alice", "a@x.com", hash_password ("pw123")⟩],
        .error ⟨400, "Email already registered"⟩) :=
  (register_duplicate_email 2 ⟨"bob", "a@x.com", "pw"⟩
      [⟨1, "alice", "a@x.com", hash_password ("pw123")⟩]).1
    ⟨⟨1, "alice", "a@x.com", hash_password ("pw123")⟩, by decide⟩

/-- C9: a login where the email matches no record and a login where the
email matches but the password hash check fails produce identical 400
errors with the same generic message, and neither issues a token. -/
theorem login_failure_indistinguishable (now1 now2 : Int)
    (e1 p1 e2 p2 : String) (db1 db2 : List User) (u : User)
    (h1 : db_first db1 (fun x => x.email == e1) = none)
    (h2 : db_first db2 (fun x => x.email == e2) = some u)
    (h3 : pwd_verify p2 u.hashed_password = false) :
    login_user now1 e1 p1 db1 = .error ⟨400, "Invalid email or password"⟩
    ∧ login_user now2 e2 p2 db2 = .error ⟨400, "Invalid email or password"⟩
    ∧ login_user now1 e1 p1 db1 = login_user now2 e2 p2 db2 := by
  have ha : login_user now1 e1 p1 db1 =
      .error ⟨400, "Invalid email or password"⟩ := by
    unfold login_user
    rw [h1]
  have hb : login_user now2 e2 p2 db2 =
      .error ⟨400, "Invalid email or password"⟩ := by
    unfold login_user
    rw [h2]
    simp [h3]
  exact ⟨ha, hb, ha.trans hb.symm⟩

/-- C9 witness: unknown email against an empty store, and wrong password
against a stored record, yield the same generic error. -/
theorem login_failure_indistinguishable_witness :
    login_user 0 ("b@x.com") ("pw") [] =
      .error ⟨400, "Invalid email or password"⟩
    ∧ login_user 0 ("a@x.com") ("wrong")
        [⟨1, "alice", "a@x.com", hash_password ("pw123")⟩] =
      .error ⟨400, "Invalid email or password"⟩ :=
  have h := login_failure_indistinguishable 0 0 ("b@x.com") ("pw")
    ("a@x.com") ("wrong") [] [⟨1, "alice", "a@x.com", hash_password ("pw123")⟩]
    ⟨1, "alice", "a@x.com", hash_password ("pw123")⟩
    rfl (by decide) (by decide)
  ⟨h.1, h.2.1⟩

/-- C8: a profile update requesting a truthy new email that the store binds
to a record with a different id fails with the 400 duplicate-email error
and leaves the store unchanged; when the email is bound to no other account
— no match, a match with the current user's own id, or the current user's
own email (which skips the check entirely) — no duplicate-email error is
raised and the update succeeds. -/
theorem update_email_uniqueness (payload : UserUpdate) (cu : User)
    (db : List User) (e : String)
    (he : payload.email = some e) (hne : e ≠ "") :
    (e ≠ cu.email → ∀ r, db_first db (fun x => x.email == e) = some r →
      r.id ≠ cu.id →
      update_my_profile payload cu db =
        (db, .error ⟨400, "Email already in use"⟩))
    ∧ ((e = cu.email ∨
        ∀ r, db_first db (fun x => x.email == e) = some r → r.id = cu.id) →
      ∃ u, (update_my_profile payload cu db).2 = .ok u) := by
  have hemail := apply_username_email payload cu
  have hid := apply_username_id payload cu
  constructor
  · intro hneq r hr hrid
    unfold update_my_profile
    simp only [he]
    have hcond : e ≠ "" ∧ e ≠ (apply_username payload cu).1.email := by
      rw [hemail]
      exact ⟨hne, hneq⟩
    rw [if_pos hcond, hr]
    have hrid2 : r.id ≠ (apply_username payload cu).1.id := by
      rw [hid]
      exact hrid
    simp [hrid2]
  · intro hcase
    unfold update_my_profile
    simp only [he]
    by_cases hcond : e ≠ "" ∧ e ≠ (apply_username payload cu).1.email
    · rw [if_pos hcond]
      rcases hcase with hown | hall
      · exact absurd hown (by rw [hemail] at hcond; exact hcond.2)
      · cases hfind : db_first db (fun x => x.email == e) with
        | none => exact ⟨_, rfl⟩
        | some r =>
          have hrid2 : r.id = (apply_username payload cu).1.id := by
            rw [hid]
            exact hall r hfind
          simp [hrid2]
    · rw [if_neg hcond]
      by_cases hch : (apply_username payload cu).2 = true
      · rw [if_pos hch]
        exact ⟨_, rfl⟩
      · rw [if_neg hch]
        exact ⟨_, rfl⟩

/-- C8 witness: requesting bob's email while logged in as alice is the 400
conflict with the store untouched. -/
theorem update_email_uniqueness_witness :
    update_my_profile ⟨none, some ("b@x.com")⟩
        ⟨1, "alice", "a@x.com", hash_password ("pw1")⟩
        [⟨1, "alice", "a@x.com", hash_password ("pw1")⟩,
          ⟨2, "bob", "b@x.com", hash_password ("pw2")⟩] =
      ([⟨1, "alice", "a@x.com", hash_password ("pw1")⟩,
          ⟨2, "bob", "b@x.com", hash_password ("pw2")⟩],
        .error ⟨400, "Email already in use"⟩) :=
  (update_email_uniqueness ⟨none, some ("b@x.com")⟩
      ⟨1, "alice", "a@x.com", hash_password ("pw1")⟩
      [⟨1, "alice", "a@x.com", hash_password ("pw1")⟩,
        ⟨2, "bob", "b@x.com", hash_password ("pw2")⟩]
      ("b@x.com") rfl (by decide)).1 (by decide)
    ⟨2, "bob", "b@x.com", hash_password ("pw2")⟩ (by decide) (by decide)

/-- C10: a validly signed, unexpired token whose `user_id` claim equals 0
passes `verify_access_token` (which only tests for absence), but
`get_current_user` rejects it as an invalid-token 401 because `if not
user_id` treats 0 as falsy — so a user with id 0 can never authenticate. -/
theorem zero_subject_never_authenticates (now e : Int) (db : List User)
    (hnow : ¬ e < now) :
    verify_access_token now
      (.wellFormed (some ALGORITHM) ⟨some 0, some e⟩
        (hmacSign SECRET_KEY ALGORITHM ⟨some 0, some e⟩)) = some 0
    ∧ get_current_user now
      (.wellFormed (some ALGORITHM) ⟨some 0, some e⟩
        (hmacSign SECRET_KEY ALGORITHM ⟨some 0, some e⟩)) db =
      .error ⟨401, "Invalid or expired token"⟩ := by
  have hv : verify_access_token now
      (.wellFormed (some ALGORITHM) ⟨some 0, some e⟩
        (hmacSign SECRET_KEY ALGORITHM ⟨some 0, some e⟩)) = some 0 := by
    unfold verify_access_token jwt_decode
    simp [hnow]
  refine ⟨hv, ?_⟩
  unfold get_current_user
  rw [hv]
  simp

/-- C10 witness: at time 0 with expiry 50, the zero-subject token verifies
to 0 yet the protected path rejects it with 401, even with a user of id 0
in the store. -/
theorem zero_subject_never_authenticates_witness :
    verify_access_token 0
      (.wellFormed (some ALGORITHM) ⟨some 0, some 50⟩
        (hmacSign SECRET_KEY ALGORITHM ⟨some 0, some 50⟩)) = some 0
    ∧ get_current_user 0
      (.wellFormed (some ALGORITHM) ⟨some 0, some 50⟩
        (hmacSign SECRET_KEY ALGORITHM ⟨some 0, some 50⟩))
      [⟨0, "zero", "z@x.com", hash_password ("pw")⟩] =
      .error ⟨401, "Invalid or expired token"⟩ :=
  zero_subject_never_authenticates 0 50
    [⟨0, "zero", "z@x.com", hash_password ("pw")⟩] (by decide)

end DhanSaathi
